import Mathlib

/-!
Verification development for the Linger editor plugin (`src/main.ts`,
`src/settings.ts`): a decaying-range tracker that maps freshly inserted text
spans to time-based visual progress.

Embedding conventions:
* document offsets and timestamps (`Date.now()` milliseconds) are `ℤ`;
* the numeric settings and all derived style math are `ℚ`;
* the host paint primitive (`RangeSetBuilder.add`, which may throw on an
  invalid span) is a black-box per-span validity predicate `addOk`;
* the `window.setTimeout` cleanup timer is a boolean `timerActive` flag on
  the plugin state, set when `scheduleCleanup` runs and cleared by a tick
  that finds no surviving ranges.
-/

namespace Linger

/-- A tracked settling range (`SettlingRange` in `main.ts`): a text span plus
its creation timestamp in milliseconds. -/
structure SettlingRange where
  «from» : ℤ
  «to» : ℤ
  timestamp : ℤ
deriving DecidableEq, Repr

/-- Plugin settings (`LingerSettings` in `settings.ts`):
`transitionDuration` in seconds, `intensity` in `[0,1]`. -/
structure LingerSettings where
  transitionDuration : ℚ
  intensity : ℚ
deriving DecidableEq, Repr

/-- `DEFAULT_SETTINGS` from `settings.ts`: 1.5 s duration, 0.4 intensity. -/
def DEFAULT_SETTINGS : LingerSettings :=
  { transitionDuration := 3 / 2, intensity := 2 / 5 }

/-- The style carried by an emitted decoration: `filter: brightness(v)` in
dark mode, `opacity: v` in light mode. -/
inductive SettlingStyle where
  | brightness (value : ℚ)
  | opacity (value : ℚ)
deriving DecidableEq, Repr

/-- The numeric channel value of a style. -/
def styleValue : SettlingStyle → ℚ
  | .brightness v => v
  | .opacity v => v

/-- `createSettlingMark` from `main.ts` lines 89-120. -/
def createSettlingMark (settings : LingerSettings) (isDark : Bool)
    (progress : ℚ) : SettlingStyle :=
  let intensity := settings.intensity
  if isDark then
    let minBrightness := 1 - intensity
    let brightness := minBrightness + progress * intensity
    .brightness brightness
  else
    let minOpacity := 1 - intensity
    let opacity := minOpacity + progress * intensity
    .opacity opacity

/-- The progress computation on `main.ts` line 72:
`Math.min(age / totalDuration, 1)` with `age = now - timestamp` and
`totalDuration = transitionDuration * 1000`. -/
def progress (settings : LingerSettings) (range : SettlingRange) (now : ℤ) : ℚ :=
  min (((now - range.timestamp : ℤ) : ℚ) / (settings.transitionDuration * 1000)) 1

/-- One emitted paint instruction: span plus computed style. -/
structure PaintInstr where
  «from» : ℤ
  «to» : ℤ
  mark : SettlingStyle
deriving DecidableEq, Repr

/-- `buildDecorations` from `main.ts` lines 56-87. It walks
`settlingRanges` in order, drops ranges older than `totalDuration`, drops
ranges the host paint primitive rejects (the `try`/`catch` around
`builder.add`), and emits one paint instruction per survivor. Returns the
new `settlingRanges` (the JS code assigns the filtered array back) together
with the emitted decorations. -/
def buildDecorations (settings : LingerSettings) (addOk : ℤ → ℤ → Bool)
    (isDark : Bool) (ranges : List SettlingRange) (now : ℤ) :
    List SettlingRange × List PaintInstr :=
  match ranges with
  | [] => ([], [])
  | range :: rest =>
    let totalDuration := settings.transitionDuration * 1000
    let age : ℚ := ((now - range.timestamp : ℤ) : ℚ)
    let tail := buildDecorations settings addOk isDark rest now
    if age > totalDuration then
      tail
    else
      let p := min (age / totalDuration) 1
      let mark := createSettlingMark settings isDark p
      if addOk range.«from» range.«to» then
        (range :: tail.1,
         { «from» := range.«from», «to» := range.«to», mark := mark } :: tail.2)
      else
        tail

/-- One reported change from `iterChanges`: positions in the old document
(`fromA`, `toA`) and in the new document (`fromB`, `toB`). -/
structure Change where
  fromA : ℤ
  toA : ℤ
  fromB : ℤ
  toB : ℤ
deriving DecidableEq, Repr

/-- The mutable state of `SettlingViewPlugin`: current decoration set,
tracked ranges, whether a cleanup timeout is pending, and the settings
snapshot. -/
structure PluginState where
  decorations : List PaintInstr
  settlingRanges : List SettlingRange
  timerActive : Bool
  settings : LingerSettings
deriving DecidableEq, Repr

/-- The constructor (`main.ts` lines 18-24): empty decorations, empty range
list, and `scheduleCleanup` already called once. -/
def initState (settings : LingerSettings) : PluginState :=
  { decorations := [], settlingRanges := [], timerActive := true,
    settings := settings }

/-- `update` from `main.ts` lines 26-54. If ranges exist, rebuild the
decorations (which also re-filters `settlingRanges`). If the document
changed, push one new range per change with `toB > fromB`, rebuild, and call
`scheduleCleanup` (modelled as setting `timerActive`). -/
def update (addOk : ℤ → ℤ → Bool) (isDark : Bool) (docChanged : Bool)
    (changes : List Change) (now : ℤ) (st : PluginState) : PluginState :=
  let st1 :=
    if st.settlingRanges.length > 0 then
      let bd := buildDecorations st.settings addOk isDark st.settlingRanges now
      { st with settlingRanges := bd.1, decorations := bd.2 }
    else st
  if docChanged then
    let inserted := changes.filterMap fun c =>
      if c.toB > c.fromB then
        some { «from» := c.fromB, «to» := c.toB, timestamp := now }
      else none
    let ranges := st1.settlingRanges ++ inserted
    let bd := buildDecorations st1.settings addOk isDark ranges now
    { st1 with settlingRanges := bd.1, decorations := bd.2,
               timerActive := true }
  else st1

/-- The body of the `setTimeout` callback in `scheduleCleanup`
(`main.ts` lines 133-142): rebuild decorations at the current time, then
re-schedule only if surviving ranges remain, so the timer stops once the
set is empty. -/
def tick (addOk : ℤ → ℤ → Bool) (isDark : Bool) (now : ℤ)
    (st : PluginState) : PluginState :=
  let bd := buildDecorations st.settings addOk isDark st.settlingRanges now
  { st with settlingRanges := bd.1, decorations := bd.2,
            timerActive := decide (bd.1.length > 0) }

/-- `updateSettings` from `main.ts` lines 145-147: replace the settings
snapshot, touch nothing else. -/
def updateSettings (st : PluginState) (settings : LingerSettings) :
    PluginState :=
  { st with settings := settings }

/-- The survival predicate of one `buildDecorations` pass: not expired and
accepted by the host paint primitive. -/
def keepRange (settings : LingerSettings) (addOk : ℤ → ℤ → Bool) (now : ℤ)
    (r : SettlingRange) : Bool :=
  decide (((now - r.timestamp : ℤ) : ℚ) ≤ settings.transitionDuration * 1000)
    && addOk r.«from» r.«to»

/-- The paint instruction emitted for a surviving range. -/
def toPaint (settings : LingerSettings) (isDark : Bool) (now : ℤ)
    (r : SettlingRange) : PaintInstr :=
  { «from» := r.«from», «to» := r.«to»,
    mark := createSettlingMark settings isDark (progress settings r now) }


/-- Characterization of one `buildDecorations` pass: the surviving ranges are
exactly the input ranges passing `keepRange`, in order, and the emitted
decorations are their `toPaint` images. -/
theorem buildDecorations_eq (settings : LingerSettings) (addOk : ℤ → ℤ → Bool)
    (isDark : Bool) (ranges : List SettlingRange) (now : ℤ) :
    buildDecorations settings addOk isDark ranges now =
      (ranges.filter (keepRange settings addOk now),
       (ranges.filter (keepRange settings addOk now)).map (toPaint settings isDark now)) := by
  induction ranges with
  | nil => rfl
  | cons r rs ih =>
    simp only [buildDecorations, ih, List.filter_cons]
    by_cases hage : ((now - r.timestamp : ℤ) : ℚ) > settings.transitionDuration * 1000
    · have hkeep : keepRange settings addOk now r = false := by
        unfold keepRange
        rw [decide_eq_false (not_le.mpr hage), Bool.false_and]
      rw [if_pos hage, hkeep]
      simp
    · have hle := not_lt.mp hage
      rw [if_neg hage]
      by_cases hok : addOk r.«from» r.«to» = true
      · have hkeep : keepRange settings addOk now r = true := by
          unfold keepRange
          rw [decide_eq_true hle, hok, Bool.and_self]
        rw [hok, hkeep]
        simp [toPaint, progress]
      · have hkeep : keepRange settings addOk now r = false := by
          unfold keepRange
          rw [Bool.eq_false_iff.mpr hok, Bool.and_false]
        simp only [Bool.not_eq_true] at hok
        rw [hok, hkeep]
        simp

/-- Claim C1: a prune pass at time `now` removes every interval whose age
`now - createdAt` exceeds `transitionDuration * 1000` milliseconds, and every
interval remaining afterwards has age at most `transitionDuration * 1000`. -/
theorem prune_removes_expired (settings : LingerSettings) (addOk : ℤ → ℤ → Bool)
    (isDark : Bool) (ranges : List SettlingRange) (now : ℤ) (r : SettlingRange)
    (hexp : ((now - r.timestamp : ℤ) : ℚ) > settings.transitionDuration * 1000) :
    r ∉ (buildDecorations settings addOk isDark ranges now).1 ∧
    ∀ s ∈ (buildDecorations settings addOk isDark ranges now).1,
      ((now - s.timestamp : ℤ) : ℚ) ≤ settings.transitionDuration * 1000 := by
  rw [buildDecorations_eq]
  constructor
  · intro hmem
    have h := (List.mem_filter.mp hmem).2
    unfold keepRange at h
    rw [decide_eq_false (not_le.mpr hexp), Bool.false_and] at h
    exact Bool.false_ne_true h
  · intro s hs
    have h := (List.mem_filter.mp hs).2
    unfold keepRange at h
    exact of_decide_eq_true (Bool.and_elim_left h)

/-- Concrete instance of `prune_removes_expired`: with the default 1.5 s
duration, a range created at time 0 is gone from the set at time 2000 ms. -/
theorem prune_removes_expired_witness :
    (⟨0, 5, 0⟩ : SettlingRange) ∉
      (buildDecorations DEFAULT_SETTINGS (fun _ _ => true) false [⟨0, 5, 0⟩] 2000).1 :=
  (prune_removes_expired DEFAULT_SETTINGS (fun _ _ => true) false [⟨0, 5, 0⟩] 2000
    ⟨0, 5, 0⟩ (by norm_num [DEFAULT_SETTINGS])).1

/-- Claim C2, counterexample: the code computes
`Math.min(age / totalDuration, 1)` with no lower clamp, so a range whose
timestamp lies in the future of `now` survives the prune pass yet gets a
strictly negative progress value, contradicting "progress is never below 0
for any relation between now and createdAt". -/
theorem progress_below_zero_cex :
    (⟨0, 1, 1000⟩ : SettlingRange) ∈
      (buildDecorations DEFAULT_SETTINGS (fun _ _ => true) false [⟨0, 1, 1000⟩] 0).1 ∧
    progress DEFAULT_SETTINGS ⟨0, 1, 1000⟩ 0 < 0 := by
  constructor
  · norm_num [buildDecorations, DEFAULT_SETTINGS]
  · norm_num [progress, DEFAULT_SETTINGS, min_def]

/-- Claim C2, amended: when `now` is not earlier than `createdAt` (the only
case arising from the code's use of `Date.now()`), the computed progress
equals `clamp(age / (transitionDuration * 1000), 0, 1)` and lies in
`[0, 1]`. -/
theorem progress_clamped (settings : LingerSettings) (r : SettlingRange) (now : ℤ)
    (hdur : 0 < settings.transitionDuration) (hnow : r.timestamp ≤ now) :
    progress settings r now =
      max 0 (min (((now - r.timestamp : ℤ) : ℚ) / (settings.transitionDuration * 1000)) 1) ∧
    0 ≤ progress settings r now ∧ progress settings r now ≤ 1 := by
  have hden : (0 : ℚ) < settings.transitionDuration * 1000 := by positivity
  have hage : (0 : ℚ) ≤ ((now - r.timestamp : ℤ) : ℚ) := by
    have h : (0 : ℤ) ≤ now - r.timestamp := by omega
    exact_mod_cast h
  have hq : (0 : ℚ) ≤ ((now - r.timestamp : ℤ) : ℚ) / (settings.transitionDuration * 1000) :=
    div_nonneg hage hden.le
  have hmin : (0 : ℚ) ≤
      min (((now - r.timestamp : ℤ) : ℚ) / (settings.transitionDuration * 1000)) 1 :=
    le_min hq zero_le_one
  refine ⟨?_, hmin, ?_⟩
  · unfold progress
    rw [max_eq_right hmin]
  · exact min_le_right _ _

/-- Concrete instance of `progress_clamped` at the default settings, 500 ms
after insertion. -/
theorem progress_clamped_witness :
    0 < DEFAULT_SETTINGS.transitionDuration ∧ (0 : ℤ) ≤ 500 ∧
    (progress DEFAULT_SETTINGS ⟨0, 1, 0⟩ 500 =
      max 0 (min (((500 - (0 : ℤ) : ℤ) : ℚ) / (DEFAULT_SETTINGS.transitionDuration * 1000)) 1) ∧
     0 ≤ progress DEFAULT_SETTINGS ⟨0, 1, 0⟩ 500 ∧
     progress DEFAULT_SETTINGS ⟨0, 1, 0⟩ 500 ≤ 1) :=
  ⟨by norm_num [DEFAULT_SETTINGS], by norm_num,
   progress_clamped DEFAULT_SETTINGS ⟨0, 1, 0⟩ 500 (by norm_num [DEFAULT_SETTINGS])
     (by norm_num)⟩

/-- Claim C3: the emitted style value is `(1 - intensity) + progress * intensity`
on the brightness channel in dark mode and on the opacity channel in light
mode; at progress 0 the value is exactly `1 - intensity`, at progress 1 it is
exactly 1. -/
theorem style_linear_law (settings : LingerSettings) (isDark : Bool) (p : ℚ) :
    createSettlingMark settings isDark p =
      (if isDark then
        SettlingStyle.brightness ((1 - settings.intensity) + p * settings.intensity)
       else
        SettlingStyle.opacity ((1 - settings.intensity) + p * settings.intensity)) ∧
    styleValue (createSettlingMark settings isDark 0) = 1 - settings.intensity ∧
    styleValue (createSettlingMark settings isDark 1) = 1 := by
  unfold createSettlingMark styleValue
  cases isDark <;> simp

/-- Claim C4: an interval rejected by the host paint primitive (`addOk`
false; the `builder.add` throw caught at lines 76-81) is removed from the
working set and excluded from the emitted instructions — every emitted
instruction passes `addOk` — while every other unexpired, accepted interval
is still rendered. The embedding is a total function: the failure is
absorbed, no error escapes. -/
theorem invalid_span_dropped (settings : LingerSettings) (addOk : ℤ → ℤ → Bool)
    (isDark : Bool) (ranges : List SettlingRange) (now : ℤ) (r : SettlingRange)
    (hbad : addOk r.«from» r.«to» = false) :
    r ∉ (buildDecorations settings addOk isDark ranges now).1 ∧
    (∀ i ∈ (buildDecorations settings addOk isDark ranges now).2,
       addOk i.«from» i.«to» = true) ∧
    (∀ s ∈ ranges, addOk s.«from» s.«to» = true →
       ((now - s.timestamp : ℤ) : ℚ) ≤ settings.transitionDuration * 1000 →
       toPaint settings isDark now s ∈
         (buildDecorations settings addOk isDark ranges now).2) := by
  rw [buildDecorations_eq]
  refine ⟨?_, ?_, ?_⟩
  · intro hmem
    have h := (List.mem_filter.mp hmem).2
    unfold keepRange at h
    rw [hbad, Bool.and_false] at h
    exact Bool.false_ne_true h
  · intro i hi
    rcases List.mem_map.mp hi with ⟨s, hs, rfl⟩
    have h := (List.mem_filter.mp hs).2
    unfold keepRange at h
    exact Bool.and_elim_right h
  · intro s hs hok hle
    apply List.mem_map_of_mem
    apply List.mem_filter.mpr
    refine ⟨hs, ?_⟩
    unfold keepRange
    rw [decide_eq_true hle, hok, Bool.and_self]

/-- Concrete instance of `invalid_span_dropped`: with a host that rejects
spans ending past offset 10, the rejected range is dropped and the valid one
is still rendered. -/
theorem invalid_span_dropped_witness :
    (⟨0, 20, 0⟩ : SettlingRange) ∉
      (buildDecorations DEFAULT_SETTINGS (fun _ t => decide (t ≤ 10)) false
        [⟨0, 5, 0⟩, ⟨0, 20, 0⟩] 1000).1 ∧
    toPaint DEFAULT_SETTINGS false 1000 ⟨0, 5, 0⟩ ∈
      (buildDecorations DEFAULT_SETTINGS (fun _ t => decide (t ≤ 10)) false
        [⟨0, 5, 0⟩, ⟨0, 20, 0⟩] 1000).2 := by
  have h := invalid_span_dropped DEFAULT_SETTINGS (fun _ t => decide (t ≤ 10)) false
    [⟨0, 5, 0⟩, ⟨0, 20, 0⟩] 1000 ⟨0, 20, 0⟩ (by norm_num)
  exact ⟨h.1, h.2.2 ⟨0, 5, 0⟩ (by norm_num) (by norm_num) (by norm_num [DEFAULT_SETTINGS])⟩

/-- Claim C5, counterexample: from the idle state (empty set, no pending
timer), a document change whose only span is degenerate (`toB = fromB`) adds
no interval — but `update` still calls `scheduleCleanup`, so a timer start
IS scheduled by that event, contradicting "no animation timer start is
scheduled". -/
theorem degenerate_insertion_timer_cex :
    (update (fun _ _ => true) false true [⟨0, 0, 5, 5⟩] 100
        { decorations := [], settlingRanges := [], timerActive := false,
          settings := DEFAULT_SETTINGS }).settlingRanges = [] ∧
    (update (fun _ _ => true) false true [⟨0, 0, 5, 5⟩] 100
        { decorations := [], settlingRanges := [], timerActive := false,
          settings := DEFAULT_SETTINGS }).timerActive = true := by
  constructor <;> norm_num [update, buildDecorations]

/-- Claim C5, amended: a document-change event all of whose spans have
`toB ≤ fromB` adds no interval to the working set (the set is exactly the
prune of the previous set), but `update` unconditionally schedules a cleanup
timer on any document change; a tick on an empty set then stops it. -/
theorem degenerate_insertions_add_nothing (addOk : ℤ → ℤ → Bool) (isDark : Bool)
    (changes : List Change) (now : ℤ) (st : PluginState)
    (hall : ∀ c ∈ changes, c.toB ≤ c.fromB) :
    (update addOk isDark true changes now st).settlingRanges =
      (buildDecorations st.settings addOk isDark st.settlingRanges now).1 ∧
    (update addOk isDark true changes now st).timerActive = true := by
  have hins : (changes.filterMap fun c =>
      if c.toB > c.fromB then
        some { «from» := c.fromB, «to» := c.toB, timestamp := now }
      else (none : Option SettlingRange)) = [] := by
    rw [List.filterMap_eq_nil_iff]
    intro c hc
    rw [if_neg (not_lt.mpr (hall c hc))]
  unfold update
  by_cases hlen : st.settlingRanges.length > 0
  · rw [if_pos hlen, if_pos rfl]
    simp only [hins, List.append_nil]
    refine ⟨?_, trivial⟩
    simp [buildDecorations_eq, List.filter_filter]
  · rw [if_neg hlen, if_pos rfl]
    simp only [hins, List.append_nil]
    exact ⟨trivial, trivial⟩

/-- Concrete instance of `degenerate_insertions_add_nothing`: a pure
deletion event leaves the working set equal to the prune of the old set. -/
theorem degenerate_insertions_add_nothing_witness :
    (update (fun _ _ => true) false true [⟨0, 0, 5, 5⟩] 100
        { decorations := [], settlingRanges := [⟨0, 3, 90⟩], timerActive := false,
          settings := DEFAULT_SETTINGS }).settlingRanges =
      (buildDecorations DEFAULT_SETTINGS (fun _ _ => true) false [⟨0, 3, 90⟩] 100).1 :=
  (degenerate_insertions_add_nothing (fun _ _ => true) false [⟨0, 0, 5, 5⟩] 100
    { decorations := [], settlingRanges := [⟨0, 3, 90⟩], timerActive := false,
      settings := DEFAULT_SETTINGS }
    (by decide)).1

/-- Claim C6: two overlapping spans recorded at different timestamps are
both tracked, and the render pass emits one paint instruction per interval,
each with progress computed from that interval's own `createdAt`. -/
theorem overlapping_insertions_independent (settings : LingerSettings)
    (addOk : ℤ → ℤ → Bool) (isDark : Bool) (r1 r2 : SettlingRange) (now : ℤ)
    (hoverlap : r1.«from» < r2.«to» ∧ r2.«from» < r1.«to»)
    (htime : r1.timestamp ≠ r2.timestamp)
    (h1ok : addOk r1.«from» r1.«to» = true) (h2ok : addOk r2.«from» r2.«to» = true)
    (h1age : ((now - r1.timestamp : ℤ) : ℚ) ≤ settings.transitionDuration * 1000)
    (h2age : ((now - r2.timestamp : ℤ) : ℚ) ≤ settings.transitionDuration * 1000) :
    buildDecorations settings addOk isDark [r1, r2] now =
      ([r1, r2],
       [⟨r1.«from», r1.«to»,
         createSettlingMark settings isDark (progress settings r1 now)⟩,
        ⟨r2.«from», r2.«to»,
         createSettlingMark settings isDark (progress settings r2 now)⟩]) := by
  have hk1 : keepRange settings addOk now r1 = true := by
    unfold keepRange; rw [decide_eq_true h1age, h1ok, Bool.and_self]
  have hk2 : keepRange settings addOk now r2 = true := by
    unfold keepRange; rw [decide_eq_true h2age, h2ok, Bool.and_self]
  rw [buildDecorations_eq]
  simp [List.filter_cons, hk1, hk2, toPaint]

/-- Concrete instance of `overlapping_insertions_independent`: spans (0,5)
at t=0 and (3,8) at t=500 rendered at t=1000. -/
theorem overlapping_insertions_independent_witness :
    buildDecorations DEFAULT_SETTINGS (fun _ _ => true) false
        [⟨0, 5, 0⟩, ⟨3, 8, 500⟩] 1000 =
      ([⟨0, 5, 0⟩, ⟨3, 8, 500⟩],
       [⟨0, 5, createSettlingMark DEFAULT_SETTINGS false
           (progress DEFAULT_SETTINGS ⟨0, 5, 0⟩ 1000)⟩,
        ⟨3, 8, createSettlingMark DEFAULT_SETTINGS false
           (progress DEFAULT_SETTINGS ⟨3, 8, 500⟩ 1000)⟩]) :=
  overlapping_insertions_independent DEFAULT_SETTINGS (fun _ _ => true) false
    ⟨0, 5, 0⟩ ⟨3, 8, 500⟩ 1000 (by norm_num) (by norm_num) rfl rfl
    (by norm_num [DEFAULT_SETTINGS]) (by norm_num [DEFAULT_SETTINGS])

/-- Claim C7: pruning is idempotent — running `buildDecorations` again at the
same `now` on the surviving set returns the same survivors (and the same
decorations). -/
theorem prune_idempotent (settings : LingerSettings) (addOk : ℤ → ℤ → Bool)
    (isDark : Bool) (ranges : List SettlingRange) (now : ℤ) :
    buildDecorations settings addOk isDark
        (buildDecorations settings addOk isDark ranges now).1 now =
      buildDecorations settings addOk isDark ranges now := by
  simp [buildDecorations_eq, List.filter_filter]

/-- Claim C8: on a fixed interval, progress is monotone in time — the decay
never reverses. -/
theorem progress_monotone (settings : LingerSettings) (r : SettlingRange)
    (t1 t2 : ℤ) (hdur : 0 < settings.transitionDuration) (h : t1 < t2) :
    progress settings r t1 ≤ progress settings r t2 := by
  unfold progress
  have hden : (0 : ℚ) < settings.transitionDuration * 1000 := by positivity
  have hnum : ((t1 - r.timestamp : ℤ) : ℚ) ≤ ((t2 - r.timestamp : ℤ) : ℚ) := by
    have hz : t1 - r.timestamp ≤ t2 - r.timestamp := by omega
    exact_mod_cast hz
  exact min_le_min (by gcongr) le_rfl

/-- Concrete instance of `progress_monotone` at the default settings. -/
theorem progress_monotone_witness :
    progress DEFAULT_SETTINGS ⟨0, 1, 0⟩ 0 ≤ progress DEFAULT_SETTINGS ⟨0, 1, 0⟩ 500 :=
  progress_monotone DEFAULT_SETTINGS ⟨0, 1, 0⟩ 0 500
    (by norm_num [DEFAULT_SETTINGS]) (by norm_num)

/-- Claim C9, counterexample: after a tick prunes the set to empty, the timer
does stop — but the next document-change event restarts it even when it
contains no insertion (a pure deletion, `toB = fromB`), so "no further ticks
occur until a new insertion event arrives" fails on the code. -/
theorem timer_restart_without_insertion_cex :
    (tick (fun _ _ => true) false 2000
        { decorations := [], settlingRanges := [⟨0, 5, 0⟩], timerActive := true,
          settings := DEFAULT_SETTINGS }).settlingRanges = [] ∧
    (tick (fun _ _ => true) false 2000
        { decorations := [], settlingRanges := [⟨0, 5, 0⟩], timerActive := true,
          settings := DEFAULT_SETTINGS }).timerActive = false ∧
    (update (fun _ _ => true) false true [⟨0, 5, 0, 0⟩] 2100
        (tick (fun _ _ => true) false 2000
          { decorations := [], settlingRanges := [⟨0, 5, 0⟩], timerActive := true,
            settings := DEFAULT_SETTINGS })).settlingRanges = [] ∧
    (update (fun _ _ => true) false true [⟨0, 5, 0, 0⟩] 2100
        (tick (fun _ _ => true) false 2000
          { decorations := [], settlingRanges := [⟨0, 5, 0⟩], timerActive := true,
            settings := DEFAULT_SETTINGS })).timerActive = true := by
  refine ⟨?_, ?_, ?_, ?_⟩ <;>
    norm_num [tick, update, buildDecorations, DEFAULT_SETTINGS]

/-- Claim C9, amended: when a tick's prune leaves the surviving set empty,
the `setTimeout` callback does not reschedule, so the timer stops; it stays
stopped until the next document-change event (which need not contain an
insertion) schedules a new one. -/
theorem timer_stops_on_empty (addOk : ℤ → ℤ → Bool) (isDark : Bool) (now : ℤ)
    (st : PluginState)
    (h : (tick addOk isDark now st).settlingRanges = []) :
    (tick addOk isDark now st).timerActive = false ∧
    ∀ (changes : List Change) (now2 : ℤ),
      (update addOk isDark true changes now2 (tick addOk isDark now st)).timerActive
        = true := by
  constructor
  · unfold tick at h ⊢
    simp only at h ⊢
    rw [h]
    rfl
  · intro changes now2
    unfold update
    by_cases hlen : (tick addOk isDark now st).settlingRanges.length > 0
    · rw [if_pos hlen, if_pos rfl]
    · rw [if_neg hlen, if_pos rfl]

/-- Concrete instance of `timer_stops_on_empty`: a tick at 2000 ms on a set
whose only range was created at 0 ms (default 1.5 s duration) empties the set
and clears the timer. -/
theorem timer_stops_on_empty_witness :
    (tick (fun _ _ => true) false 2000
      { decorations := [], settlingRanges := [⟨0, 5, 0⟩], timerActive := true,
        settings := DEFAULT_SETTINGS }).timerActive = false :=
  (timer_stops_on_empty (fun _ _ => true) false 2000
    { decorations := [], settlingRanges := [⟨0, 5, 0⟩], timerActive := true,
      settings := DEFAULT_SETTINGS }
    (by norm_num [tick, buildDecorations, DEFAULT_SETTINGS])).1

/-- Claim C10: `updateSettings` replaces only the settings snapshot; the
tracked ranges, the current decorations, and the pending-timer flag are
unchanged. -/
theorem updateSettings_frame (st : PluginState) (s : LingerSettings) :
    (updateSettings st s).settings = s ∧
    (updateSettings st s).settlingRanges = st.settlingRanges ∧
    (updateSettings st s).decorations = st.decorations ∧
    (updateSettings st s).timerActive = st.timerActive :=
  ⟨rfl, rfl, rfl, rfl⟩

end Linger
